import Mathlib

/-!
Verification of the sales-dashboard data pipeline
(`dashboard_penjualan/dashboard_penjualan.py`).

Shallow embedding notes.

* A raw table is a list of rows whose cells are `Option`-valued: `none`
  models a missing cell (pandas `NaN`/`NaT`).  The date, quantity, price
  and initial-stock cells are modelled post-coercion (`pd.to_datetime` /
  `pd.to_numeric` with `errors='coerce'` yield either a value or missing;
  lines 67-69), while the `total` cell is kept as raw text because the
  code inspects its characters (lines 71-75).
* Dates are modelled as integers (only their ordering is used, lines
  78-91).  Monetary and quantity values are modelled as integers; the
  claims under study do not depend on fractional values, and `.astype(int)`
  on such values is the identity.
* `pd.read_csv` dtype inference is abstracted: the `total` column is
  modelled as its text cells.
* The `bulan` (month-bucket) column of line 91 feeds only the monthly
  chart, which no claim mentions, so it is not modelled.
* `st.stop()` (line 108) ends the script run; the pipeline is therefore
  a function returning `Option Output`, with `none` for a stopped run.
* The required-column existence check of lines 130-133 always passes in
  this model because every row structurally carries the columns.
* `df.groupby` sorts group keys; the claims only inspect membership and
  per-product lookup in the reconciliation table, never its row order,
  so distinct products are collected with a simple dedup.
-/

namespace Dashboard

/-- One row of the raw CSV table after the per-column coercions of lines
67-69: `tanggal`, `qty`, `harga` are value-or-missing; `stok_awal` and the
categorical columns come straight from the file (missing cells are `none`);
`total` is the raw text of the optional total column. -/
structure RawRow where
  tanggal : Option Int
  produk : String
  wilayah : Option String
  kategori : Option String
  qty : Option Int
  harga : Option Int
  stok_awal : Option Int
  total : Option String
deriving DecidableEq, Repr

/-- The raw table: its rows plus whether the CSV has a `total` column
(line 71 tests `'total' not in df.columns`). -/
structure RawTable where
  hasTotal : Bool
  rows : List RawRow
deriving DecidableEq, Repr

/-- Whether a text cell contains a character outside `0`-`9`; embeds
`.str.contains(r'[^0-9]')` of line 71. -/
def hasNonDigit (s : String) : Bool :=
  s.data.any (fun c => !c.isDigit)

/-- The branch condition of line 71: the total column is recomputed when it
is absent, or when any non-missing value contains a non-digit character
(`df['total'].dropna().astype(str).str.contains(r'[^0-9]').any()`). -/
def uncleanTotal (t : RawTable) : Bool :=
  !t.hasTotal || (t.rows.filterMap (fun r => r.total)).any hasNonDigit

/-- `str.replace('.', '', regex=False)` of line 74: drop every literal dot. -/
def stripDots (s : String) : String :=
  ⟨s.data.filter (fun c => c ≠ '.')⟩

/-- Numeric value of a decimal digit character. -/
def digitVal (c : Char) : Nat :=
  c.toNat - '0'.toNat

/-- `pd.to_numeric(..., errors='coerce')` of line 75, restricted to the
texts that can occur there: a non-empty all-digit string parses to its
value, anything else coerces to missing.  (The branch guard of line 71
guarantees that only all-digit texts reach this parse, so the restriction
is exact for the program.) -/
def toNumericText (s : String) : Option Int :=
  if s.data ≠ [] ∧ s.data.all Char.isDigit then
    some (Int.ofNat (s.data.foldl (fun n c => 10 * n + digitVal c) 0))
  else
    none

/-- Multiplication with missing propagation (`df['qty'] * df['harga']`,
line 72: NaN in either factor yields NaN). -/
def optMul (a b : Option Int) : Option Int :=
  match a, b with
  | some x, some y => some (x * y)
  | _, _ => none

/-- A normalized row: same columns, with `total` now numeric-or-missing. -/
structure Row where
  tanggal : Option Int
  produk : String
  wilayah : Option String
  kategori : Option String
  qty : Option Int
  harga : Option Int
  stok_awal : Option Int
  total : Option Int
deriving DecidableEq, Repr

/-- Normalization of one row given the table-level branch decision:
lines 71-75.  In the unclean branch `total := qty * harga`; otherwise the
existing text is dot-stripped and parsed (missing stays missing: `NaN`
survives `astype(str)`/`replace`/`to_numeric` as missing). -/
def normRow (unclean : Bool) (r : RawRow) : Row :=
  { tanggal := r.tanggal
    produk := r.produk
    wilayah := r.wilayah
    kategori := r.kategori
    qty := r.qty
    harga := r.harga
    stok_awal := r.stok_awal
    total :=
      if unclean then optMul r.qty r.harga
      else r.total.bind (fun s => toNumericText (stripDots s)) }

/-- The normalized table (lines 66-75). -/
def normalize (t : RawTable) : List Row :=
  t.rows.map (normRow (uncleanTotal t))

/-- The date-range predicate of line 89; a missing date compares false
(`NaT` comparisons are false in pandas). -/
def inDateRange (d1 d2 : Int) (r : Row) : Bool :=
  match r.tanggal with
  | some d => decide (d1 ≤ d) && decide (d ≤ d2)
  | none => false

/-- `df` after lines 89-90: keep rows inside the inclusive date range,
then drop rows with a missing date (a no-op after the range test, kept
for fidelity to line 90). -/
def dfStage (rows : List Row) (d1 d2 : Int) : List Row :=
  (rows.filter (inDateRange d1 d2)).filter (fun r => r.tanggal.isSome)

/-- Distinct values of a list.  pandas `unique()` keeps first occurrences
and `groupby` sorts keys; no claim depends on the order of these value
lists, only on membership, so a structural dedup (keeping last
occurrences) is used. -/
def uniqueVals : List String → List String
  | [] => []
  | x :: xs => if x ∈ xs then uniqueVals xs else x :: uniqueVals xs

/-- `df['wilayah'].dropna().unique().tolist()` of line 94. -/
def wilayahOptions (rows : List Row) : List String :=
  uniqueVals (rows.filterMap (fun r => r.wilayah))

/-- `df['kategori'].dropna().unique().tolist()` of line 96. -/
def kategoriOptions (rows : List Row) : List String :=
  uniqueVals (rows.filterMap (fun r => r.kategori))

/-- The region/category membership predicate of lines 99-102: `isin` on a
missing value is false because the selection lists never contain a missing
marker (they are drawn from `dropna().unique()`). -/
def passFilter (wil kat : List String) (r : Row) : Bool :=
  (match r.wilayah with
    | some w => wil.contains w
    | none => false) &&
  (match r.kategori with
    | some k => kat.contains k
    | none => false)

/-- `df_filter` of lines 99-102, before the fill of line 104. -/
def dfFilterRaw (rows : List Row) (wil kat : List String) : List Row :=
  rows.filter (passFilter wil kat)

/-- Line 104 applied to one row: `pd.to_numeric(...)` is the identity on
the already-numeric column and `fillna(0)` replaces missing by `0`. -/
def fillnaTotal (r : Row) : Row :=
  { r with total := some (r.total.getD 0) }

/-- `df_filter` as of line 104. -/
def dfFilterFilled (rows : List Row) (wil kat : List String) : List Row :=
  (dfFilterRaw rows wil kat).map fillnaTotal

/-- The distinct products of the table, the group keys of lines 136-137. -/
def produkList (rows : List Row) : List String :=
  uniqueVals (rows.map (fun r => r.produk))

/-- The non-missing quantities of one product's rows, in source order. -/
def qtyList (rows : List Row) (p : String) : List Int :=
  (rows.filter (fun r => r.produk == p)).filterMap (fun r => r.qty)

/-- `df.groupby('produk')['qty'].sum(min_count=1)` of line 136: the sum
skips missing quantities, and a product with no non-missing quantity gets
a missing sum (that is what `min_count=1` is for). -/
def terjualOpt (rows : List Row) (p : String) : Option Int :=
  if qtyList rows p = [] then none else some (qtyList rows p).sum

/-- `df.groupby('produk')['stok_awal'].first()` of line 137: the first
non-missing value of the group in source order, missing when the group
has none. -/
def stokAwalOpt (rows : List Row) (p : String) : Option Int :=
  ((rows.filter (fun r => r.produk == p)).filterMap (fun r => r.stok_awal)).head?

/-- `sisa_stok = stok_awal - terjual` of line 140, with missing
propagation (NaN arithmetic). -/
def sisaOpt (rows : List Row) (p : String) : Option Int :=
  match stokAwalOpt rows p, terjualOpt rows p with
  | some a, some s => some (a - s)
  | _, _ => none

/-- One row of the reconciliation table `stok_df` (lines 143-147), after
`fillna(0).astype(int)`. -/
structure StokRow where
  produk : String
  stokAwal : Int
  terjual : Int
  sisaStok : Int
deriving DecidableEq, Repr

/-- The `stok_df` entry of one product: each of the three columns is its
grouped value with missing replaced by `0` (line 147).  Note the fill is
applied to the already-propagated subtraction, so a missing initial stock
yields remaining stock `0`, not `-sold`. -/
def stokEntry (rows : List Row) (p : String) : StokRow :=
  { produk := p
    stokAwal := (stokAwalOpt rows p).getD 0
    terjual := (terjualOpt rows p).getD 0
    sisaStok := (sisaOpt rows p).getD 0 }

/-- The reconciliation table `stok_df` of lines 135-147, one entry per
distinct product of the table it is given. -/
def stokDfOf (rows : List Row) : List StokRow :=
  (produkList rows).map (stokEntry rows)

/-- `stok_menipis = stok_df[stok_df['Sisa Stok'] <= 5]` of line 153. -/
def stokMenipisOf (rows : List Row) : List StokRow :=
  (stokDfOf rows).filter (fun e => decide (e.sisaStok ≤ 5))

/-- The reconciliation entry of a given product, when present. -/
def lookupStok (rows : List Row) (p : String) : Option StokRow :=
  (stokDfOf rows).find? (fun e => e.produk == p)

/-- The data outputs of one script run that reaches the end (no stop). -/
structure Output where
  /-- `df` after line 91: the date-filtered normalized table, the input of
  the stock reconciliation (line 136) and of the PDF export (line 215). -/
  dfRows : List Row
  /-- `df_filter` after line 104. -/
  dfFilterRows : List Row
  /-- `total_penjualan` of line 111. -/
  totalPenjualan : Int
  /-- `total_transaksi` of line 112. -/
  totalTransaksi : Nat
  /-- `stok_df` of lines 143-147. -/
  stokDf : List StokRow
  /-- `stok_menipis` of line 153. -/
  stokMenipis : List StokRow
  /-- the row sequence handed to `to_excel` (line 199), i.e. `df_filter`
  after the re-coercion and `dropna(subset=['total'])` of lines 173-174. -/
  excelRows : List Row
  /-- the row sequence handed to `df_to_pdf` (line 215), which is `df`. -/
  pdfRows : List Row
deriving DecidableEq, Repr

/-- The outputs of a completed run, as computed by lines 66-217. -/
def mkOutput (t : RawTable) (d1 d2 : Int) (wil kat : List String) : Output :=
  let df := dfStage (normalize t) d1 d2
  let dfF := dfFilterFilled df wil kat
  { dfRows := df
    dfFilterRows := dfF
    totalPenjualan := (dfF.filterMap (fun r => r.total)).sum
    totalTransaksi := dfF.length
    stokDf := stokDfOf df
    stokMenipis := stokMenipisOf df
    excelRows := dfF.filter (fun r => r.total.isSome)
    pdfRows := df }

/-- One script run: normalize, date-filter, region/category-filter; if the
filtered table is empty the run stops at line 108 (`st.stop()`) producing
no further outputs, otherwise it runs to the end. -/
def pipeline (t : RawTable) (d1 d2 : Int) (wil kat : List String) :
    Option Output :=
  if (dfFilterFilled (dfStage (normalize t) d1 d2) wil kat).isEmpty then none
  else some (mkOutput t d1 d2 wil kat)

/-- The recompute condition as the spec words it: "the table has no
revenue/total column OR some non-missing value of that column contains a
character that is not a digit". -/
def specRecomputeCond (t : RawTable) : Prop :=
  t.hasTotal = false ∨
    ∃ r ∈ t.rows, ∃ s, r.total = some s ∧ ∃ c ∈ s.data, c.isDigit = false

/-- The spec-side "sold" figure for a product: the sum of the (non-missing)
quantities over the rows of a table for that product. -/
def soldSumOverRows (rows : List Row) (p : String) : Int :=
  (qtyList rows p).sum

/-- Example table for C1: one product with sales on two distinct dates. -/
def exC1 : RawTable :=
  { hasTotal := false
    rows := [
      { tanggal := some 1, produk := "A", wilayah := some "W", kategori := some "K",
        qty := some 2, harga := some 1, stok_awal := some 10, total := none },
      { tanggal := some 2, produk := "A", wilayah := some "W", kategori := some "K",
        qty := some 3, harga := some 1, stok_awal := some 10, total := none } ] }

/-- Example table for C2: one row whose region and category are missing,
so the default (un-narrowed) selection lists are empty and the filtered
table is empty while the date-filtered table is not. -/
def exC2 : RawTable :=
  { hasTotal := false
    rows := [
      { tanggal := some 0, produk := "A", wilayah := none, kategori := none,
        qty := some 1, harga := some 1, stok_awal := some 10, total := none } ] }

/-- Example table for C4: a total column holding the text "1.500". -/
def exC4 : RawTable :=
  { hasTotal := true
    rows := [
      { tanggal := some 0, produk := "P", wilayah := some "W", kategori := some "K",
        qty := some 2, harga := some 3, stok_awal := some 9,
        total := some "1.500" } ] }

/-- Example table for C5: a row with a missing quantity and no total
column, so the derived revenue is missing. -/
def exC5 : RawTable :=
  { hasTotal := false
    rows := [
      { tanggal := some 0, produk := "A", wilayah := some "W", kategori := some "K",
        qty := none, harga := some 5, stok_awal := some 10, total := none } ] }

/-- The single record of the filtered table of the exC5 run: its missing
revenue has been filled to 0. -/
def exC5row : Row :=
  { tanggal := some 0, produk := "A", wilayah := some "W", kategori := some "K",
    qty := none, harga := some 5, stok_awal := some 10, total := some 0 }

/-- Example rows for C6: product X whose first row has a MISSING initial
stock and whose second row has initial stock 7. -/
def exC6rows : List Row :=
  [ { tanggal := some 0, produk := "X", wilayah := some "W", kategori := some "K",
      qty := some 1, harga := some 1, stok_awal := none, total := some 1 },
    { tanggal := some 0, produk := "X", wilayah := some "W", kategori := some "K",
      qty := some 1, harga := some 1, stok_awal := some 7, total := some 1 } ]

/-- Example rows for the C6 witness: product X with initial-stock values
100 then 999 in source order. -/
def exC6wrows : List Row :=
  [ { tanggal := some 0, produk := "X", wilayah := some "W", kategori := some "K",
      qty := some 1, harga := some 1, stok_awal := some 100, total := some 1 },
    { tanggal := some 0, produk := "X", wilayah := some "W", kategori := some "K",
      qty := some 1, harga := some 1, stok_awal := some 999, total := some 1 } ]

/-- Example table for C8: two rows in different regions, with the
selection narrowed to the first region. -/
def exC8 : RawTable :=
  { hasTotal := false
    rows := [
      { tanggal := some 0, produk := "A", wilayah := some "W1", kategori := some "K",
        qty := some 1, harga := some 2, stok_awal := some 10, total := none },
      { tanggal := some 0, produk := "B", wilayah := some "W2", kategori := some "K",
        qty := some 1, harga := some 2, stok_awal := some 10, total := none } ] }

/-- Example table for the C9 witness. -/
def exC9 : RawTable :=
  { hasTotal := false
    rows := [
      { tanggal := some 0, produk := "A", wilayah := some "W", kategori := some "K",
        qty := some 1, harga := some 5, stok_awal := some 10, total := none } ] }

/-- The normalized form of the exC9 row. -/
def exC9row : Row :=
  { tanggal := some 0, produk := "A", wilayah := some "W", kategori := some "K",
    qty := some 1, harga := some 5, stok_awal := some 10, total := some 5 }

/-- Example rows for the C10 witness: a product whose only row has a
missing initial stock and 100 units sold. -/
def exC10rows : List Row :=
  [ { tanggal := some 0, produk := "Z", wilayah := some "W", kategori := some "K",
      qty := some 100, harga := some 1, stok_awal := none, total := some 1 } ]

/-! ## Helper lemmas -/

/-- Membership in `uniqueVals` is membership in the underlying list. -/
theorem mem_uniqueVals {a : String} :
    ∀ {l : List String}, a ∈ uniqueVals l ↔ a ∈ l := by
  intro l
  induction l with
  | nil => simp [uniqueVals]
  | cons x xs ih =>
    by_cases hx : x ∈ xs
    · rw [uniqueVals, if_pos hx, ih]
      constructor
      · intro h; exact List.mem_cons_of_mem x h
      · intro h
        rcases List.mem_cons.mp h with h1 | h1
        · exact h1 ▸ hx
        · exact h1
    · rw [uniqueVals, if_neg hx]
      simp [ih]

/-- Searching the reconciliation rows built over a key list finds the
entry of any key present in the list. -/
theorem find?_map_stokEntry (rows : List Row) (p : String) :
    ∀ (l : List String), p ∈ l →
      (l.map (stokEntry rows)).find? (fun e => e.produk == p) =
        some (stokEntry rows p) := by
  intro l hp
  induction l with
  | nil => cases hp
  | cons x xs ih =>
    by_cases hxp : x = p
    · subst hxp
      simp [List.find?, stokEntry]
    · have hmem : p ∈ xs := by
        rcases List.mem_cons.mp hp with h1 | h1
        · exact absurd h1.symm hxp
        · exact h1
      simp only [List.map_cons, List.find?]
      have hne : ((stokEntry rows x).produk == p) = false := by
        simp [stokEntry, hxp]
      rw [hne]
      exact ih hmem

/-- The reconciliation lookup of a product present in the table yields its
entry. -/
theorem lookupStok_eq (rows : List Row) (p : String)
    (hp : p ∈ produkList rows) :
    lookupStok rows p = some (stokEntry rows p) :=
  find?_map_stokEntry rows p (produkList rows) hp

/-- The product of any row of a table is among the distinct products. -/
theorem produk_mem_produkList {rows : List Row} {r : Row} (hr : r ∈ rows) :
    r.produk ∈ produkList rows :=
  mem_uniqueVals.mpr (List.mem_map.mpr ⟨r, hr, rfl⟩)

/-- The zero-filled grouped quantity sum is the plain sum of the
non-missing quantities. -/
theorem terjual_getD (rows : List Row) (p : String) :
    (terjualOpt rows p).getD 0 = soldSumOverRows rows p := by
  unfold terjualOpt soldSumOverRows
  split
  · rename_i h
    rw [h]
    rfl
  · rfl

/-- A completed run yields exactly the outputs of `mkOutput`. -/
theorem pipeline_some {t : RawTable} {d1 d2 : Int} {wil kat : List String}
    {out : Output} (h : pipeline t d1 d2 wil kat = some out) :
    out = mkOutput t d1 d2 wil kat := by
  unfold pipeline at h
  split at h
  · exact absurd h (by simp)
  · exact (Option.some.inj h).symm

/-- The head of `filterMap id` over a list whose prefix is all-missing is
the first present value. -/
theorem filterMap_id_head (v : Int) (rest : List (Option Int)) :
    ∀ (pre : List (Option Int)), (∀ x ∈ pre, x = none) →
      ((pre ++ some v :: rest).filterMap id).head? = some v := by
  intro pre hpre
  induction pre with
  | nil => rfl
  | cons x xs ih =>
    have hx : x = none := hpre x (List.mem_cons_self x xs)
    subst hx
    rw [List.cons_append, List.filterMap_cons_none rfl]
    exact ih (fun y hy => hpre y (List.mem_cons_of_mem _ hy))

end Dashboard

namespace Dashboard

/-! ## Claim C1 — stock reconciliation and the filters -/

/-- Counterexample to C1: with the date range narrowed to day 1, the
reconciliation reports sold = 2 for product A although the sum of quantity
over ALL normalized rows is 5; the entry that the claim predicts (sold 5,
remaining 5) is not produced.  The sold figure depends on the chosen date
range. -/
theorem stock_reconciliation_global_cex :
    (pipeline exC1 1 1 ["W"] ["K"]).map (fun o => o.stokDf)
      = some [{ produk := "A", stokAwal := 10, terjual := 2, sisaStok := 8 }] ∧
    soldSumOverRows (normalize exC1) "A" = 5 ∧
    (pipeline exC1 1 1 ["W"] ["K"]).map (fun o => o.stokDf)
      ≠ some [{ produk := "A", stokAwal := 10, terjual := 5, sisaStok := 5 }] := by
  refine ⟨rfl, rfl, ?_⟩
  decide

/-- Claim C1 (amended): the stock reconciliation is computed over the
DATE-filtered normalized table.  Whenever a run completes, its
reconciliation equals the one computed from the date-filtered table —
hence it is independent of the region and category selection — and the
sold figure of each product is the sum of quantity over the date-filtered
rows of that product. -/
theorem stock_reconciliation_dateFiltered (t : RawTable) (d1 d2 : Int)
    (wil kat : List String) (out : Output)
    (h : pipeline t d1 d2 wil kat = some out) :
    out.stokDf = stokDfOf (dfStage (normalize t) d1 d2) ∧
    ∀ e ∈ out.stokDf,
      e.terjual = soldSumOverRows (dfStage (normalize t) d1 d2) e.produk := by
  rw [pipeline_some h]
  refine ⟨rfl, ?_⟩
  intro e he
  rcases List.mem_map.mp he with ⟨p, hp, rfl⟩
  exact terjual_getD _ p

/-- Witness for C1: the amended theorem applied to the concrete run of
exC1. -/
theorem stock_reconciliation_dateFiltered_witness :
    (mkOutput exC1 1 1 ["W"] ["K"]).stokDf
        = stokDfOf (dfStage (normalize exC1) 1 1) ∧
    ∀ e ∈ (mkOutput exC1 1 1 ["W"] ["K"]).stokDf,
      e.terjual = soldSumOverRows (dfStage (normalize exC1) 1 1) e.produk :=
  stock_reconciliation_dateFiltered exC1 1 1 ["W"] ["K"]
    (mkOutput exC1 1 1 ["W"] ["K"]) rfl

/-! ## Claim C2 — the empty-filter state -/

/-- Counterexample to C2: the filtered table of this run is empty, the run
stops at line 108 and produces NO outputs at all, although the stock
reconciliation over the table it would have received is the non-empty
table shown — the reconciliation does not proceed. -/
theorem empty_filter_stops_stock_cex :
    pipeline exC2 0 0 [] [] = none ∧
    stokDfOf (dfStage (normalize exC2) 0 0)
      = [{ produk := "A", stokAwal := 10, terjual := 1, sisaStok := 9 }] :=
  ⟨rfl, rfl⟩

/-- Claim C2 (amended): an empty filtered table is a non-error state (a
warning, then a stop), but it short-circuits EVERYTHING downstream, the
stock reconciliation included: the run produces no outputs. -/
theorem empty_filter_shortcircuits (t : RawTable) (d1 d2 : Int)
    (wil kat : List String)
    (h : dfFilterRaw (dfStage (normalize t) d1 d2) wil kat = []) :
    pipeline t d1 d2 wil kat = none := by
  unfold pipeline dfFilterFilled
  rw [h]
  rfl

/-- Witness for C2: the amended theorem applied to the concrete run of
exC2. -/
theorem empty_filter_shortcircuits_witness :
    pipeline exC2 0 0 [] [] = none :=
  empty_filter_shortcircuits exC2 0 0 [] [] rfl

/-! ## Claim C3 — the revenue-derivation branch condition -/

/-- Claim C3: revenue is recomputed as `qty * harga` exactly when the
table has no total column or some non-missing total text contains a
character that is not a digit; otherwise each existing text is kept,
dot-stripped and then parsed. -/
theorem revenue_branch_condition (t : RawTable) :
    (uncleanTotal t = true ↔ specRecomputeCond t) ∧
    (normalize t).map (fun r => r.total) =
      t.rows.map (fun r =>
        if uncleanTotal t then optMul r.qty r.harga
        else r.total.bind (fun s => toNumericText (stripDots s))) := by
  constructor
  · unfold uncleanTotal specRecomputeCond
    simp only [Bool.or_eq_true, Bool.not_eq_true', List.any_eq_true,
      List.mem_filterMap, hasNonDigit]
    constructor
    · rintro (h | ⟨s, ⟨r, hr, hrs⟩, c, hc, hcd⟩)
      · exact Or.inl h
      · exact Or.inr ⟨r, hr, s, hrs, c, hc, by simpa using hcd⟩
    · rintro (h | ⟨r, hr, s, hrs, c, hc, hcd⟩)
      · exact Or.inl h
      · exact Or.inr ⟨s, ⟨r, hr, hrs⟩, c, hc, by simp [hcd]⟩
  · unfold normalize
    rw [List.map_map]
    rfl

/-! ## Claim C4 — the thousands-strip policy -/

/-- Counterexample to C4: a total column holding "1.500" is NOT deemed
clean (the dot matches the non-digit test of line 71), so the recompute
branch runs and the normalized revenue is `qty * harga = 6`, not the
claimed 1500. -/
theorem thousands_strip_cex :
    uncleanTotal exC4 = true ∧
    (normalize exC4).map (fun r => r.total) = [some 6] ∧
    some (6 : Int) ≠ some (1500 : Int) :=
  ⟨rfl, rfl, by decide⟩

/-- Claim C4 (amended): any non-missing total text containing a literal
dot makes the column deemed unclean, so the whole table takes the
recompute branch and the revenue of every row becomes `qty * harga`; the
dot-strip of the clean branch can therefore never see a dotted value. -/
theorem dotted_total_forces_recompute (t : RawTable) (r : RawRow) (s : String)
    (hr : r ∈ t.rows) (hs : r.total = some s) (hd : '.' ∈ s.data) :
    uncleanTotal t = true ∧
    (normalize t).map (fun r => r.total)
      = t.rows.map (fun r => optMul r.qty r.harga) := by
  have hu : uncleanTotal t = true := by
    unfold uncleanTotal
    simp only [Bool.or_eq_true, List.any_eq_true, List.mem_filterMap,
      hasNonDigit]
    exact Or.inr ⟨s, ⟨r, hr, hs⟩, '.', hd, by decide⟩
  refine ⟨hu, ?_⟩
  unfold normalize
  rw [List.map_map]
  have hfun : (fun x => x.total) ∘ normRow (uncleanTotal t)
      = fun x => optMul x.qty x.harga := by
    funext x
    show (normRow (uncleanTotal t) x).total = optMul x.qty x.harga
    unfold normRow
    rw [hu]
    rfl
  rw [hfun]

/-- Witness for C4: the amended theorem applied to exC4 and its dotted
cell. -/
theorem dotted_total_forces_recompute_witness :
    uncleanTotal exC4 = true ∧
    (normalize exC4).map (fun r => r.total)
      = exC4.rows.map (fun r => optMul r.qty r.harga) :=
  dotted_total_forces_recompute exC4
    { tanggal := some 0, produk := "P", wilayah := some "W", kategori := some "K",
      qty := some 2, harga := some 3, stok_awal := some 9,
      total := some "1.500" }
    "1.500" (by decide) rfl (by decide)

/-! ## Claim C5 — revenue never missing after Normalize -/

/-- Counterexample to C5: in a completed run, the normalized
(date-filtered) table — the one handed to the PDF export and to the
reconciliation — still carries a MISSING revenue value; only the filtered
table has it filled to 0.  The claim that the revenue of the unfiltered
normalized table is never missing is false. -/
theorem revenue_missing_unfiltered_cex :
    (pipeline exC5 0 0 ["W"] ["K"]).map
        (fun o => o.pdfRows.map (fun r => r.total))
      = some [none] ∧
    (pipeline exC5 0 0 ["W"] ["K"]).map
        (fun o => o.dfFilterRows.map (fun r => r.total))
      = some [some 0] :=
  ⟨rfl, rfl⟩

/-- Claim C5 (amended): the never-missing guarantee holds for the FILTERED
table (line 104 fills missing revenue with 0 there): in every completed
run each record of the filtered table has a present revenue value. -/
theorem filtered_revenue_never_missing (t : RawTable) (d1 d2 : Int)
    (wil kat : List String) (out : Output)
    (h : pipeline t d1 d2 wil kat = some out) :
    ∀ r ∈ out.dfFilterRows, r.total.isSome = true := by
  rw [pipeline_some h]
  intro r hr
  rcases List.mem_map.mp hr with ⟨r0, _, rfl⟩
  rfl

/-- Witness for C5: the amended theorem applied to the concrete run of
exC5 and the concrete record of its filtered table. -/
theorem filtered_revenue_never_missing_witness :
    exC5row.total.isSome = true :=
  filtered_revenue_never_missing exC5 0 0 ["W"] ["K"]
    (mkOutput exC5 0 0 ["W"] ["K"]) rfl exC5row (by decide)

/-! ## Claim C6 — the first-seen initial stock -/

/-- Counterexample to C6: the first row encountered for product X has a
missing initial stock, yet the reconciliation uses 7, the value of the
LATER row (`groupby(...).first()` skips missing values) — the later value
is not ignored, contradicting the first-row rule. -/
theorem stock_first_seen_cex :
    exC6rows.map (fun r => r.stok_awal) = [none, some 7] ∧
    stokDfOf exC6rows
      = [{ produk := "X", stokAwal := 7, terjual := 2, sisaStok := 5 }] :=
  ⟨rfl, rfl⟩

/-- Claim C6 (amended): the initial stock used by the reconciliation is
the first NON-MISSING `stok_awal` value of the rows of the product in
source order; leading missing values are skipped and later values after
the first non-missing one are ignored. -/
theorem stock_first_nonmissing (rows : List Row) (p : String) (v : Int)
    (pre rest : List (Option Int))
    (hsplit : (rows.filter (fun r => r.produk == p)).map (fun r => r.stok_awal)
      = pre ++ some v :: rest)
    (hpre : ∀ x ∈ pre, x = none) :
    ∃ e, lookupStok rows p = some e ∧ e.stokAwal = v := by
  have hne : rows.filter (fun r => r.produk == p) ≠ [] := by
    intro h
    rw [h] at hsplit
    exact absurd hsplit.symm (by simp)
  obtain ⟨r0, hr0⟩ := List.exists_mem_of_ne_nil _ hne
  have hr0mem := List.mem_filter.mp hr0
  have hp : p ∈ produkList rows := by
    have hmem := produk_mem_produkList hr0mem.1
    rwa [show r0.produk = p from by simpa using hr0mem.2] at hmem
  have hopt : stokAwalOpt rows p = some v := by
    unfold stokAwalOpt
    have hfm : (rows.filter (fun r => r.produk == p)).filterMap
          (fun r => r.stok_awal)
        = ((rows.filter (fun r => r.produk == p)).map
            (fun r => r.stok_awal)).filterMap id := by
      rw [List.filterMap_map]
      rfl
    rw [hfm, hsplit]
    exact filterMap_id_head v rest pre hpre
  refine ⟨stokEntry rows p, lookupStok_eq rows p hp, ?_⟩
  unfold stokEntry
  rw [hopt]
  rfl

/-- Witness for C6: with values 100 then 999 in source order the amended
theorem yields 100 (the example of the spec itself). -/
theorem stock_first_nonmissing_witness :
    ∃ e, lookupStok exC6wrows "X" = some e ∧ e.stokAwal = 100 :=
  stock_first_nonmissing exC6wrows "X" 100 [] [some 999] rfl
    (fun x hx => absurd hx (List.not_mem_nil x))

/-! ## Claim C7 — the low-stock boundary -/

/-- Claim C7: an entry belongs to the low-stock list if and only if it
belongs to the full reconciliation table and its remaining stock is at
most 5 — so remaining stock 5 is included and 6 excluded — and the
low-stock list carries the same three columns (the same record type) as
the full table. -/
theorem low_stock_boundary (rows : List Row) (e : StokRow) :
    e ∈ stokMenipisOf rows ↔ e ∈ stokDfOf rows ∧ e.sisaStok ≤ 5 := by
  unfold stokMenipisOf
  rw [List.mem_filter]
  simp

/-! ## Claim C8 — the export boundary -/

/-- Counterexample to C8: with the region selection narrowed to W1, the
spreadsheet export receives 1 row but the PDF export receives 2 rows —
the PDF export is fed `df` (the date-filtered table), not the filtered
table. -/
theorem export_boundary_cex :
    (pipeline exC8 0 0 ["W1"] ["K"]).map
        (fun o => (o.excelRows.length, o.pdfRows.length)) = some (1, 2) ∧
    (pipeline exC8 0 0 ["W1"] ["K"]).map
        (fun o => decide (o.pdfRows = o.excelRows)) = some false :=
  ⟨rfl, rfl⟩

/-- Claim C8 (amended): the spreadsheet export receives exactly the
filtered table (the drop of missing revenue at line 174 removes nothing,
every filtered revenue being present), while the PDF export receives the
date-filtered normalized table, before the region/category filter and
before the revenue fill. -/
theorem export_inputs (t : RawTable) (d1 d2 : Int) (wil kat : List String)
    (out : Output) (h : pipeline t d1 d2 wil kat = some out) :
    out.excelRows = out.dfFilterRows ∧ out.pdfRows = out.dfRows := by
  rw [pipeline_some h]
  constructor
  · show (dfFilterFilled (dfStage (normalize t) d1 d2) wil kat).filter
        (fun r => r.total.isSome)
      = dfFilterFilled (dfStage (normalize t) d1 d2) wil kat
    rw [List.filter_eq_self]
    intro r hr
    rcases List.mem_map.mp hr with ⟨r0, _, rfl⟩
    rfl
  · rfl

/-- Witness for C8: the amended theorem applied to the concrete run of
exC8. -/
theorem export_inputs_witness :
    (mkOutput exC8 0 0 ["W1"] ["K"]).excelRows
        = (mkOutput exC8 0 0 ["W1"] ["K"]).dfFilterRows ∧
    (mkOutput exC8 0 0 ["W1"] ["K"]).pdfRows
        = (mkOutput exC8 0 0 ["W1"] ["K"]).dfRows :=
  export_inputs exC8 0 0 ["W1"] ["K"] (mkOutput exC8 0 0 ["W1"] ["K"]) rfl

/-! ## Claim C9 — missing region or category never passes the filter -/

/-- Claim C9: under the default selections (the distinct non-missing
region and category values of the date-filtered table), every record that
passes the region/category filter has a non-missing region and a
non-missing category. -/
theorem default_filter_nonmissing (t : RawTable) (d1 d2 : Int) (r : Row)
    (h : r ∈ dfFilterRaw (dfStage (normalize t) d1 d2)
      (wilayahOptions (dfStage (normalize t) d1 d2))
      (kategoriOptions (dfStage (normalize t) d1 d2))) :
    r.wilayah.isSome = true ∧ r.kategori.isSome = true := by
  have hpass := (List.mem_filter.mp h).2
  unfold passFilter at hpass
  cases hw : r.wilayah with
  | none => rw [hw] at hpass; simp at hpass
  | some w =>
    cases hk : r.kategori with
    | none => rw [hw, hk] at hpass; simp at hpass
    | some k => simp

/-- Witness for C9: the theorem applied to a concrete record that passes
the default filter. -/
theorem default_filter_nonmissing_witness :
    exC9row.wilayah.isSome = true ∧ exC9row.kategori.isSome = true :=
  default_filter_nonmissing exC9 0 0 exC9row (by decide)

/-! ## Claim C10 — all-missing initial stock -/

/-- Claim C10: a product present in the table all of whose rows have a
missing initial stock is reported with initial stock 0 and remaining
stock 0 (the missing subtraction result is filled with 0 before the
integer conversion), whatever its sold count, and consequently appears on
the low-stock list. -/
theorem all_missing_stock_zero (rows : List Row) (p : String)
    (hex : ∃ r ∈ rows, r.produk = p)
    (hall : ∀ r ∈ rows, r.produk = p → r.stok_awal = none) :
    ∃ e, lookupStok rows p = some e ∧ e.stokAwal = 0 ∧ e.sisaStok = 0 ∧
      e ∈ stokMenipisOf rows := by
  obtain ⟨r0, hr0, hr0p⟩ := hex
  have hp : p ∈ produkList rows := hr0p ▸ produk_mem_produkList hr0
  have hnone : stokAwalOpt rows p = none := by
    unfold stokAwalOpt
    have hnil : (rows.filter (fun r => r.produk == p)).filterMap
        (fun r => r.stok_awal) = [] := by
      rw [List.filterMap_eq_nil_iff]
      intro a ha
      have hmem := List.mem_filter.mp ha
      exact hall a hmem.1 (by simpa using hmem.2)
    rw [hnil]
    rfl
  refine ⟨stokEntry rows p, lookupStok_eq rows p hp, ?_, ?_, ?_⟩
  · unfold stokEntry
    rw [hnone]
    rfl
  · unfold stokEntry sisaOpt
    rw [hnone]
    rfl
  · rw [low_stock_boundary]
    constructor
    · exact List.mem_map.mpr ⟨p, hp, rfl⟩
    · unfold stokEntry sisaOpt
      rw [hnone]
      simp

/-- Witness for C10: the theorem applied to exC10rows; product Z gets
initial stock 0 and remaining stock 0 despite 100 units sold, and lands
on the low-stock list. -/
theorem all_missing_stock_zero_witness :
    ∃ e, lookupStok exC10rows "Z" = some e ∧ e.stokAwal = 0 ∧
      e.sisaStok = 0 ∧ e ∈ stokMenipisOf exC10rows :=
  all_missing_stock_zero exC10rows "Z"
    ⟨{ tanggal := some 0, produk := "Z", wilayah := some "W", kategori := some "K",
       qty := some 100, harga := some 1, stok_awal := none, total := some 1 },
      by decide, rfl⟩
    (by decide)

end Dashboard
